import Mathlib

/-!
# lslboost::condition_variable (pthread/condition_variable_fwd.hpp)

A shallow embedding of the inline members of `lslboost::condition_variable`.

* The world seen by one waiter call is a state `σ` (shared data guarded by the
  caller's lock, the clocks, the operating system).  Every operation that the
  header only declares, or takes from another header, is a field of `Env`:
  it is an arbitrary function on the state, so a spurious return, a lying
  native wait or a jumping wall clock are all covered.
* A predicate is a function `σ → Bool`: `pred()` reads the shared state under
  the lock and does not change it.
* Time points and durations are exact: system and steady clock readings are
  integers (nanosecond ticks), time points and durations of a template
  `Duration` are rationals in nanosecond units.  Overflow of the tick
  representation is outside the model.
* A `while` loop takes a fuel argument and returns `none` when it runs out.
* A native operation that throws or blocks for ever does not return; the
  members below are described for the calls that come back.
-/

namespace lslboost

/-- The result type of the timed waits, `lslboost::cv_status`. -/
inductive cv_status where
  | no_timeout
  | timeout
  deriving DecidableEq, Repr

/-- The members and helpers that `condition_variable_fwd.hpp` uses but does not
define: `wait(unique_lock<mutex>&)` and `do_wait_until` (declared only),
`detail::to_timespec` (timespec.hpp) and the two chrono clocks.  `τ` stands for
`struct timespec`. -/
structure Env (σ τ : Type) where
  /-- The declared member `void wait(unique_lock<mutex>& m)`. -/
  wait : σ → σ
  /-- The declared member `bool do_wait_until(lock, timespec const&)`. -/
  do_wait_until : τ → σ → Bool × σ
  /-- The helper `lslboost::detail::to_timespec(nanoseconds)`. -/
  to_timespec : ℤ → τ
  /-- The call `chrono::system_clock::now()`. -/
  system_now : σ → ℤ × σ
  /-- The call `chrono::steady_clock::now()`. -/
  steady_now : σ → ℤ × σ

section Waits

variable {σ τ : Type}

/-- Lines 91-95, `wait(m, pred)`: `while(!pred()) wait(m);`. -/
def wait_pred (env : Env σ τ) (pred : σ → Bool) : ℕ → σ → Option σ
  | 0, _ => none
  | fuel + 1, s => if pred s then some s else wait_pred env pred fuel (env.wait s)

/-- Modelled from the spec: `chrono::ceil<nanoseconds>` of lslboost/chrono/ceil.hpp,
which is not among the sources.  The spec asks to "round the duration up
(ceiling) to the wait primitive's time resolution"; the argument is a duration
in nanosecond units, the result a whole number of nanoseconds. -/
def ceil_ns (d : ℚ) : ℤ := ⌈d⌉

/-- Lines 246-255, `wait_until(lk, time_point<system_clock, nanoseconds> tp)`:
the deadline is turned into a `timespec` and handed to `do_wait_until`, whose
report alone decides the outcome. -/
def wait_until_nano (env : Env σ τ) (tp : ℤ) (s : σ) : cv_status × σ :=
  let d := tp
  let ts := env.to_timespec d
  let r := env.do_wait_until ts s
  if r.1 then (cv_status.no_timeout, r.2) else (cv_status.timeout, r.2)

/-- Lines 158-170, `wait_until(lock, time_point<system_clock, Duration> t)`:
wait on the deadline rounded up to nanoseconds, then compare the system clock
with `t`. -/
def wait_until_system (env : Env σ τ) (t : ℚ) (s : σ) : cv_status × σ :=
  let w := wait_until_nano env (ceil_ns t) s
  let now := env.system_now w.2
  (if (now.1 : ℚ) < t then cv_status.no_timeout else cv_status.timeout, now.2)

/-- Lines 172-183, `wait_until(lock, time_point<Clock, Duration> t)`; `clock_now`
is `Clock::now()`. -/
def wait_until_clock (env : Env σ τ) (clock_now : σ → ℚ × σ) (t : ℚ) (s : σ) :
    cv_status × σ :=
  let s_now := env.system_now s
  let c_now := clock_now s_now.2
  let w := wait_until_nano env (s_now.1 + ceil_ns (t - c_now.1)) c_now.2
  let c_end := clock_now w.2
  (if c_end.1 < t then cv_status.no_timeout else cv_status.timeout, c_end.2)

/-- The loop of lines 185-198, `wait_until(lock, t, pred)`.  `w` is the call
`wait_until(lock, t)` that overload resolution selects for the type of `t`. -/
def wait_until_pred_loop (w : σ → cv_status × σ) (pred : σ → Bool) :
    ℕ → σ → Option (Bool × σ)
  | 0, _ => none
  | fuel + 1, s =>
    if pred s then some (true, s)
    else
      let r := w s
      if r.1 = cv_status.timeout then some (pred r.2, r.2)
      else wait_until_pred_loop w pred fuel r.2

/-- Lines 185-198 for a deadline on a clock other than the system clock: the
inner call is the overload of lines 172-183. -/
def wait_until_pred (env : Env σ τ) (clock_now : σ → ℚ × σ) (t : ℚ) (pred : σ → Bool) :
    ℕ → σ → Option (Bool × σ) :=
  wait_until_pred_loop (wait_until_clock env clock_now t) pred

/-- Lines 185-198 for a system-clock deadline whose `Duration` is not
`nanoseconds`: the inner call is the overload of lines 158-170. -/
def wait_until_system_pred (env : Env σ τ) (t : ℚ) (pred : σ → Bool) :
    ℕ → σ → Option (Bool × σ) :=
  wait_until_pred_loop (wait_until_system env t) pred

/-- Lines 185-198 for a system-clock deadline in nanoseconds: the inner call is
the non-template overload of lines 246-255. -/
def wait_until_nano_pred (env : Env σ τ) (tp : ℤ) (pred : σ → Bool) :
    ℕ → σ → Option (Bool × σ) :=
  wait_until_pred_loop (wait_until_nano env tp) pred

/-- A world whose state is a tick counter read by both clocks: a native wait
lasts one tick, and `do_wait_until` reports `true` when it comes back before
the deadline it was given. -/
def tick_env : Env ℕ ℤ where
  wait := fun s => s + 1
  do_wait_until := fun ts s => (decide (((s + 1 : ℕ) : ℤ) < ts), s + 1)
  to_timespec := fun d => d
  system_now := fun s => ((s : ℤ), s)
  steady_now := fun s => ((s : ℤ), s)

/-- The tick counter as a `Clock`. -/
def tick_clock (s : ℕ) : ℚ × ℕ := ((s : ℚ), s)

end Waits

section Construction

end Construction

/-! ## Theorems -/

section WaitsTheorems

variable {σ τ : Type}

theorem wait_pred_some_pred (env : Env σ τ) (pred : σ → Bool) :
    ∀ (fuel : ℕ) (s s' : σ), wait_pred env pred fuel s = some s' → pred s' = true := by
  intro fuel
  induction fuel with
  | zero => intro s s' h; simp [wait_pred] at h
  | succ n ih =>
    intro s s' h
    simp only [wait_pred] at h
    split at h
    · cases h; assumption
    · exact ih _ _ h

theorem wait_pred_returns (env : Env σ τ) (pred : σ → Bool) :
    ∀ (n : ℕ) (s : σ), pred (env.wait^[n] s) = true →
      ∃ s', wait_pred env pred (n + 1) s = some s' := by
  intro n
  induction n with
  | zero => intro s h; exact ⟨s, by simpa [wait_pred] using h⟩
  | succ k ih =>
    intro s h
    rw [Function.iterate_succ_apply] at h
    by_cases hp : pred s = true
    · exact ⟨s, by simp [wait_pred, hp]⟩
    · obtain ⟨s', hs'⟩ := ih (env.wait s) h
      refine ⟨s', ?_⟩
      rw [wait_pred]
      simp only [hp]
      simpa using hs'

/-- What a result of the predicate loop tells: the boolean is the predicate at
exit, and a `false` comes right after an inner wait that reported a timeout. -/
theorem wait_until_pred_loop_some (w : σ → cv_status × σ) (pred : σ → Bool) :
    ∀ (fuel : ℕ) (s : σ) (b : Bool) (s' : σ),
      wait_until_pred_loop w pred fuel s = some (b, s') →
      b = pred s' ∧ (b = false → ∃ s0, w s0 = (cv_status.timeout, s')) := by
  intro fuel
  induction fuel with
  | zero => intro s b s' h; simp [wait_until_pred_loop] at h
  | succ n ih =>
    intro s b s' h
    simp only [wait_until_pred_loop] at h
    split at h
    · rename_i hp
      simp only [Option.some.injEq, Prod.mk.injEq] at h
      obtain ⟨rfl, rfl⟩ := h
      exact ⟨hp.symm, by simp⟩
    · split at h
      · rename_i ht
        simp only [Option.some.injEq, Prod.mk.injEq] at h
        obtain ⟨rfl, rfl⟩ := h
        exact ⟨rfl, fun _ => ⟨s, Prod.ext ht rfl⟩⟩
      · exact ih _ _ _ h

/-- The predicate loop returns once, after some number `n` of inner waits, the
predicate holds or the next inner wait reports a timeout: fuel `n + 1` is enough. -/
theorem wait_until_pred_loop_returns (w : σ → cv_status × σ) (pred : σ → Bool) :
    ∀ (n : ℕ) (s : σ),
      (pred ((fun x => (w x).2)^[n] s) = true ∨
        (w ((fun x => (w x).2)^[n] s)).1 = cv_status.timeout) →
      ∃ b s', wait_until_pred_loop w pred (n + 1) s = some (b, s') := by
  intro n
  induction n with
  | zero =>
    intro s h
    simp only [Function.iterate_zero, id_eq] at h
    by_cases hp : pred s = true
    · exact ⟨true, s, by simp [wait_until_pred_loop, hp]⟩
    · have ht : (w s).1 = cv_status.timeout := h.resolve_left hp
      exact ⟨pred (w s).2, (w s).2, by simp [wait_until_pred_loop, hp, ht]⟩
  | succ k ih =>
    intro s h
    rw [Function.iterate_succ_apply] at h
    by_cases hp : pred s = true
    · exact ⟨true, s, by simp [wait_until_pred_loop, hp]⟩
    · by_cases ht : (w s).1 = cv_status.timeout
      · exact ⟨pred (w s).2, (w s).2, by
          rw [wait_until_pred_loop]; simp [hp, ht]⟩
      · obtain ⟨b, s', hs'⟩ := ih (w s).2 h
        refine ⟨b, s', ?_⟩
        rw [wait_until_pred_loop]
        simp only [hp, ht]
        simpa using hs'

/-- C1. `wait(lock, pred)` returns only in a state where `pred()` is true,
whatever the underlying `wait(lock)` does to the state at each call; and it does
return, in the first such state, as soon as `pred()` holds after some number
`n` of underlying waits. -/
theorem wait_pred_returns_only_when_pred_holds (env : Env σ τ) (pred : σ → Bool) :
    (∀ (fuel : ℕ) (s s' : σ), wait_pred env pred fuel s = some s' → pred s' = true) ∧
    (∀ (n : ℕ) (s : σ), pred (env.wait^[n] s) = true →
      ∃ s', wait_pred env pred (n + 1) s = some s' ∧ pred s' = true) := by
  refine ⟨wait_pred_some_pred env pred, ?_⟩
  intro n s h
  obtain ⟨s', hs'⟩ := wait_pred_returns env pred n s h
  exact ⟨s', hs', wait_pred_some_pred env pred _ _ _ hs'⟩

/-- Witness for C1: three underlying waits make the counter reach 3. -/
theorem wait_pred_returns_only_when_pred_holds_witness :
    wait_pred tick_env (fun s => decide (3 ≤ s)) 5 0 = some 3 ∧
      (fun s => decide (3 ≤ s)) 3 = true :=
  ⟨by decide,
   (wait_pred_returns_only_when_pred_holds tick_env (fun s => decide (3 ≤ s))).1 5 0 3
     (by decide)⟩

/-- C3. The boolean returned by `wait_until(lock, t, pred)` is the value of
`pred()` in the state at exit, for every deadline, on each of the three paths
that the inner `wait_until(lock, t)` can take, and so whether or not the
deadline was reached.  Last part: the call does return, with fuel `n + 1`, once
after `n` inner waits the predicate holds or the next inner wait times out. -/
theorem wait_until_pred_result_is_pred_at_exit (env : Env σ τ) (pred : σ → Bool) :
    (∀ (clock_now : σ → ℚ × σ) (t : ℚ) (fuel : ℕ) (s : σ) (b : Bool) (s' : σ),
      wait_until_pred env clock_now t pred fuel s = some (b, s') → b = pred s') ∧
    (∀ (t : ℚ) (fuel : ℕ) (s : σ) (b : Bool) (s' : σ),
      wait_until_system_pred env t pred fuel s = some (b, s') → b = pred s') ∧
    (∀ (tp : ℤ) (fuel : ℕ) (s : σ) (b : Bool) (s' : σ),
      wait_until_nano_pred env tp pred fuel s = some (b, s') → b = pred s') ∧
    (∀ (clock_now : σ → ℚ × σ) (t : ℚ) (n : ℕ) (s : σ),
      (pred ((fun x => (wait_until_clock env clock_now t x).2)^[n] s) = true ∨
        (wait_until_clock env clock_now t
          ((fun x => (wait_until_clock env clock_now t x).2)^[n] s)).1 = cv_status.timeout) →
      ∃ b s', wait_until_pred env clock_now t pred (n + 1) s = some (b, s') ∧ b = pred s') := by
  refine ⟨fun _ _ fuel s b s' h => (wait_until_pred_loop_some _ pred fuel s b s' h).1,
   fun _ fuel s b s' h => (wait_until_pred_loop_some _ pred fuel s b s' h).1,
   fun _ fuel s b s' h => (wait_until_pred_loop_some _ pred fuel s b s' h).1, ?_⟩
  intro clock_now t n s h
  obtain ⟨b, s', hs'⟩ := wait_until_pred_loop_returns _ pred n s h
  exact ⟨b, s', hs', (wait_until_pred_loop_some _ pred _ s b s' hs').1⟩

/-- Witness for C3: a predicate that holds from tick 1 on is reported `true`
well before a deadline of 7, one that never holds is reported `false` at a
deadline of 2, and likewise on the two system-clock paths. -/
theorem wait_until_pred_result_is_pred_at_exit_witness :
    true = (fun s : ℕ => decide (1 ≤ s)) 1 ∧
    false = (fun s : ℕ => decide (100 ≤ s)) 2 ∧
    false = (fun s : ℕ => decide (100 ≤ s)) 2 ∧
    false = (fun s : ℕ => decide (100 ≤ s)) 2 :=
  ⟨(wait_until_pred_result_is_pred_at_exit tick_env (fun s => decide (1 ≤ s))).1
      tick_clock 7 5 0 true 1
      (by norm_num [wait_until_pred, wait_until_pred_loop, wait_until_clock, wait_until_nano,
            tick_env, tick_clock, ceil_ns]),
   (wait_until_pred_result_is_pred_at_exit tick_env (fun s => decide (100 ≤ s))).1
      tick_clock 2 5 0 false 2
      (by norm_num [wait_until_pred, wait_until_pred_loop, wait_until_clock, wait_until_nano,
            tick_env, tick_clock, ceil_ns]
          decide),
   (wait_until_pred_result_is_pred_at_exit tick_env (fun s => decide (100 ≤ s))).2.1
      2 5 0 false 2
      (by norm_num [wait_until_system_pred, wait_until_pred_loop, wait_until_system,
            wait_until_nano, tick_env, ceil_ns]
          decide),
   (wait_until_pred_result_is_pred_at_exit tick_env (fun s => decide (100 ≤ s))).2.2.1
      2 5 0 false 2 (by decide)⟩

end WaitsTheorems

section ConstructionTheorems

end ConstructionTheorems

end lslboost
